import Mathlib

/-!
Verification of the `stock-backtest-liquidity` processor
(`src/app/processor.py`).

The module has two operations:
* `validate_input_message`, which delegates to an external schema
  predicate and raises `ValueError("Invalid message format")` on failure;
* `compute_liquidity_signal`, which coerces `avg_volume` with Python
  `int()` and `turnover_ratio` with Python `float()`, computes
  `score = avg_volume / 1_000_000 + turnover_ratio`, classifies the
  message as `"LIQUID"` iff `score >= 2`, and returns the input dict
  merged with `liquidity_score = round(score, 4)` and the signal.

Embedding conventions: Python dicts become association lists over
`String` keys with first-match lookup; Python numbers become `ℤ`/`ℚ`
(floats modelled exactly as rationals); raising becomes `Except`;
the logging side channel becomes an explicit list of log entries.
The external collaborator `validate_message_schema` is passed as a
function parameter, mirroring the injected-predicate contract.
-/

/-- Python values that can appear in a processor message. -/
inductive Value where
  | int : ℤ → Value
  | float : ℚ → Value
  | str : String → Value
  | bool : Bool → Value
  | none : Value
deriving DecidableEq

/-- A Python dict: an association list from string keys to values. -/
abbrev Msg := List (String × Value)

/-- First-match lookup in a message, `m[k]` / `m.get(k)`. -/
def getVal : Msg → String → Option Value
  | [], _ => Option.none
  | p :: rest, k => if p.1 = k then Option.some p.2 else getVal rest k

/-- Python `message.get(k, default)`. -/
def getD (m : Msg) (k : String) (d : Value) : Value :=
  (getVal m k).getD d

/-- Insert or overwrite one key, keeping the position of an existing
key (Python dict assignment semantics). -/
def setKey (m : Msg) (k : String) (v : Value) : Msg :=
  if (getVal m k).isSome then
    m.map (fun p => if p.1 = k then (k, v) else p)
  else
    m ++ [(k, v)]

/-- Python `{**m, **r}`: entries of `m`, then entries of `r` inserted
left to right, overwriting on key collision. -/
def dictMerge (m r : Msg) : Msg :=
  r.foldl (fun acc p => setKey acc p.1 p.2) m

/-- Errors raised by the processor: Python `ValueError` and `TypeError`
carrying their message text. -/
inductive Err where
  | valueError : String → Err
  | typeError : String → Err
deriving DecidableEq

/-- Diagnostic log entries emitted by the two operations, in order. -/
inductive LogEntry where
  | debugValidating : LogEntry
  | errorInvalidSchema : Msg → LogEntry
  | infoComputing : Value → LogEntry
  | debugResult : Value → Msg → LogEntry
deriving DecidableEq

/-- Digits of a decimal numeral to a natural number; fails on an empty
list or any non-digit character. -/
def parseNatDigits (cs : List Char) : Option ℕ :=
  if cs.isEmpty then Option.none
  else
    cs.foldl
      (fun acc c =>
        match acc with
        | Option.none => Option.none
        | Option.some n =>
            if c.isDigit then Option.some (n * 10 + (c.toNat - 48))
            else Option.none)
      (Option.some 0)

/-- Model of Python `int(s)` string parsing: optional sign followed by
decimal digits (whitespace and underscore handling omitted). -/
def parseIntStr (s : String) : Option ℤ :=
  match s.data with
  | '-' :: rest => (parseNatDigits rest).map (fun n => -(n : ℤ))
  | '+' :: rest => (parseNatDigits rest).map (fun n => (n : ℤ))
  | cs => (parseNatDigits cs).map (fun n => (n : ℤ))

/-- Digits with an optional single decimal point to an exact rational;
fails unless at least one digit is present. -/
def parseFracDigits (cs : List Char) : Option ℚ :=
  match cs.indexOf? '.' with
  | Option.none => (parseNatDigits cs).map (fun n => (n : ℚ))
  | Option.some _ =>
      let intPart := cs.takeWhile (fun c => c ≠ '.')
      let fracPart := (cs.dropWhile (fun c => c ≠ '.')).drop 1
      if fracPart.contains '.' then Option.none
      else if intPart.isEmpty ∧ fracPart.isEmpty then Option.none
      else
        let ip : Option ℕ :=
          if intPart.isEmpty then Option.some 0 else parseNatDigits intPart
        let fp : Option ℕ :=
          if fracPart.isEmpty then Option.some 0 else parseNatDigits fracPart
        match ip, fp with
        | Option.some i, Option.some f =>
            Option.some ((i : ℚ) + (f : ℚ) / ((10 : ℚ) ^ fracPart.length))
        | _, _ => Option.none

/-- Model of Python `float(s)` string parsing: optional sign, digits,
optional single decimal point (exponents and whitespace omitted). -/
def parseFloatStr (s : String) : Option ℚ :=
  match s.data with
  | '-' :: rest => (parseFracDigits rest).map (fun q => -q)
  | '+' :: rest => parseFracDigits rest
  | cs => parseFracDigits cs

/-- Truncation toward zero, the rounding mode of Python `int(float)`. -/
def truncQ (q : ℚ) : ℤ :=
  if 0 ≤ q then ⌊q⌋ else ⌈q⌉

/-- Model of the Python `int()` coercion applied to a message value. -/
def pyInt : Value → Except Err ℤ
  | Value.int n => Except.ok n
  | Value.float q => Except.ok (truncQ q)
  | Value.bool b => Except.ok (if b then 1 else 0)
  | Value.str s =>
      match parseIntStr s with
      | Option.some n => Except.ok n
      | Option.none =>
          Except.error
            (Err.valueError ("invalid literal for int() with base 10: " ++ s))
  | Value.none =>
      Except.error
        (Err.typeError "int() argument must be a string or a number, not NoneType")

/-- Model of the Python `float()` coercion applied to a message value. -/
def pyFloat : Value → Except Err ℚ
  | Value.int n => Except.ok (n : ℚ)
  | Value.float q => Except.ok q
  | Value.bool b => Except.ok (if b then 1 else 0)
  | Value.str s =>
      match parseFloatStr s with
      | Option.some q => Except.ok q
      | Option.none =>
          Except.error
            (Err.valueError ("could not convert string to float: " ++ s))
  | Value.none =>
      Except.error
        (Err.typeError "float() argument must be a string or a number, not NoneType")

/-- Round-half-to-even to the nearest integer, the rounding of Python
`round` (on our exact-rational model of floats). -/
def rndHalfEven (q : ℚ) : ℤ :=
  if q - ⌊q⌋ < 1 / 2 then ⌊q⌋
  else if 1 / 2 < q - ⌊q⌋ then ⌊q⌋ + 1
  else if ⌊q⌋ % 2 = 0 then ⌊q⌋ else ⌊q⌋ + 1

/-- Python `round(x, 4)`: half-even rounding at four decimal places. -/
def roundTo4 (q : ℚ) : ℚ :=
  (rndHalfEven (q * 10000) : ℚ) / 10000

/-- `validate_input_message` from `src/app/processor.py`: emits the
debug trace, checks the externally supplied schema predicate, and on
failure logs the offending message and raises
`ValueError("Invalid message format")`; on success returns the message
unchanged.  Returns the emitted log entries alongside the outcome. -/
def validate_input_message (schema : Msg → Bool) (m : Msg) :
    List LogEntry × Except Err Msg :=
  if schema m then
    ([LogEntry.debugValidating], Except.ok m)
  else
    ([LogEntry.debugValidating, LogEntry.errorInvalidSchema m],
      Except.error (Err.valueError "Invalid message format"))

/-- Source line `score = (avg_volume / 1_000_000) + turnover_ratio`
(Python true division of the coerced integer by `1_000_000`). -/
def scoreOf (avg_volume : ℤ) (turnover : ℚ) : ℚ :=
  (avg_volume : ℚ) / 1000000 + turnover

/-- Source line `signal = "LIQUID" if score >= 2 else "ILLIQUID"`. -/
def signalOf (score : ℚ) : String :=
  if 2 ≤ score then "LIQUID" else "ILLIQUID"

/-- Source `result` dict:
`{"liquidity_score": round(score, 4), "liquidity_signal": signal}`. -/
def resultOf (score : ℚ) : Msg :=
  [("liquidity_score", Value.float (roundTo4 score)),
   ("liquidity_signal", Value.str (signalOf score))]

/-- `compute_liquidity_signal` from `src/app/processor.py`: reads
`symbol` (default `"UNKNOWN"`), coerces `avg_volume` with `int()`
(default `1_000_000`) and `turnover_ratio` with `float()` (default
`0.8`), computes `score = avg_volume / 1_000_000 + turnover_ratio`,
sets the signal to `"LIQUID"` iff `score >= 2`, and returns the input
merged with `liquidity_score = round(score, 4)` and the signal.
Coercion errors propagate; the info/debug logs are emitted only after
both coercions succeed, matching the source order. -/
def compute_liquidity_signal (m : Msg) : List LogEntry × Except Err Msg :=
  let symbol := getD m "symbol" (Value.str "UNKNOWN")
  match pyInt (getD m "avg_volume" (Value.int 1000000)) with
  | Except.error e => ([], Except.error e)
  | Except.ok avg_volume =>
    match pyFloat (getD m "turnover_ratio" (Value.float (4 / 5))) with
    | Except.error e => ([], Except.error e)
    | Except.ok turnover =>
      let score := scoreOf avg_volume turnover
      let result := resultOf score
      ([LogEntry.infoComputing symbol, LogEntry.debugResult symbol result],
        Except.ok (dictMerge m result))

/-! ### Lookup and merge lemmas -/

theorem getVal_map_update_self (m : Msg) (k : String) (v : Value)
    (h : (getVal m k).isSome) :
    getVal (m.map (fun p => if p.1 = k then (k, v) else p)) k = Option.some v := by
  induction m with
  | nil => simp [getVal] at h
  | cons p rest ih =>
    by_cases hp : p.1 = k
    · simp [getVal, hp]
    · simp only [getVal, hp, if_false] at h
      simp only [List.map_cons, getVal, hp, if_false]
      exact ih h

theorem getVal_map_update_ne (m : Msg) (k : String) (v : Value) (k' : String)
    (h : k' ≠ k) :
    getVal (m.map (fun p => if p.1 = k then (k, v) else p)) k' = getVal m k' := by
  induction m with
  | nil => simp [getVal]
  | cons p rest ih =>
    by_cases hp : p.1 = k
    · have : k ≠ k' := fun hkk => h hkk.symm
      simp [getVal, hp, this, ih]
    · by_cases hp' : p.1 = k'
      · simp [getVal, hp, hp', h]
      · simp [getVal, hp, hp', ih]

theorem getVal_append_single_self (m : Msg) (k : String) (v : Value)
    (h : getVal m k = Option.none) :
    getVal (m ++ [(k, v)]) k = Option.some v := by
  induction m with
  | nil => simp [getVal]
  | cons p rest ih =>
    by_cases hp : p.1 = k
    · simp [getVal, hp] at h
    · simp only [getVal, hp, if_false] at h
      simp only [List.cons_append, getVal, hp, if_false]
      exact ih h

theorem getVal_append_single_ne (m : Msg) (k : String) (v : Value) (k' : String)
    (h : k' ≠ k) :
    getVal (m ++ [(k, v)]) k' = getVal m k' := by
  induction m with
  | nil => simp [getVal, Ne.symm h]
  | cons p rest ih =>
    by_cases hp' : p.1 = k'
    · simp [getVal, hp']
    · simp [getVal, hp', ih]

theorem getVal_setKey_self (m : Msg) (k : String) (v : Value) :
    getVal (setKey m k v) k = Option.some v := by
  unfold setKey
  by_cases h : (getVal m k).isSome
  · simp only [h, if_true]
    exact getVal_map_update_self m k v h
  · simp only [h, if_false]
    exact getVal_append_single_self m k v (Option.not_isSome_iff_eq_none.mp h)

theorem getVal_setKey_ne (m : Msg) (k : String) (v : Value) (k' : String)
    (h : k' ≠ k) :
    getVal (setKey m k v) k' = getVal m k' := by
  unfold setKey
  by_cases hs : (getVal m k).isSome
  · simp only [hs, if_true]
    exact getVal_map_update_ne m k v k' h
  · simp only [hs, if_false]
    exact getVal_append_single_ne m k v k' h

theorem dictMerge_resultOf (m : Msg) (s : ℚ) :
    dictMerge m (resultOf s) =
      setKey (setKey m "liquidity_score" (Value.float (roundTo4 s)))
        "liquidity_signal" (Value.str (signalOf s)) := rfl

theorem getVal_merge_score (m : Msg) (s : ℚ) :
    getVal (dictMerge m (resultOf s)) "liquidity_score" =
      Option.some (Value.float (roundTo4 s)) := by
  rw [dictMerge_resultOf, getVal_setKey_ne, getVal_setKey_self]
  decide

theorem getVal_merge_signal (m : Msg) (s : ℚ) :
    getVal (dictMerge m (resultOf s)) "liquidity_signal" =
      Option.some (Value.str (signalOf s)) := by
  rw [dictMerge_resultOf, getVal_setKey_self]

theorem getVal_merge_other (m : Msg) (s : ℚ) (k : String)
    (h1 : k ≠ "liquidity_score") (h2 : k ≠ "liquidity_signal") :
    getVal (dictMerge m (resultOf s)) k = getVal m k := by
  rw [dictMerge_resultOf, getVal_setKey_ne _ _ _ _ h2, getVal_setKey_ne _ _ _ _ h1]

/-! ### Evaluation lemmas for the scorer -/

theorem compute_ok (m : Msg) (a : ℤ) (t : ℚ)
    (hA : pyInt (getD m "avg_volume" (Value.int 1000000)) = Except.ok a)
    (hT : pyFloat (getD m "turnover_ratio" (Value.float (4 / 5))) = Except.ok t) :
    compute_liquidity_signal m =
      ([LogEntry.infoComputing (getD m "symbol" (Value.str "UNKNOWN")),
        LogEntry.debugResult (getD m "symbol" (Value.str "UNKNOWN"))
          (resultOf (scoreOf a t))],
       Except.ok (dictMerge m (resultOf (scoreOf a t)))) := by
  simp only [compute_liquidity_signal, hA, hT]

theorem compute_avg_err (m : Msg) (e : Err)
    (hA : pyInt (getD m "avg_volume" (Value.int 1000000)) = Except.error e) :
    compute_liquidity_signal m = ([], Except.error e) := by
  simp only [compute_liquidity_signal, hA]

theorem compute_turnover_err (m : Msg) (a : ℤ) (e : Err)
    (hA : pyInt (getD m "avg_volume" (Value.int 1000000)) = Except.ok a)
    (hT : pyFloat (getD m "turnover_ratio" (Value.float (4 / 5))) = Except.error e) :
    compute_liquidity_signal m = ([], Except.error e) := by
  simp only [compute_liquidity_signal, hA, hT]

/-! ### Rounding and truncation lemmas -/

theorem rndHalfEven_bounds (q : ℚ) :
    ⌊q⌋ ≤ rndHalfEven q ∧ rndHalfEven q ≤ ⌊q⌋ + 1 := by
  unfold rndHalfEven
  split_ifs <;> omega

theorem rndHalfEven_mono {q q' : ℚ} (h : q ≤ q') :
    rndHalfEven q ≤ rndHalfEven q' := by
  rcases lt_or_eq_of_le (Int.floor_mono h) with hf | hf
  · have h1 := (rndHalfEven_bounds q).2
    have h2 := (rndHalfEven_bounds q').1
    omega
  · have hsub : q - (⌊q⌋ : ℚ) ≤ q' - (⌊q⌋ : ℚ) := by linarith
    unfold rndHalfEven
    rw [← hf]
    split_ifs <;> first | omega | linarith

theorem rndHalfEven_char (q : ℚ) :
    |q - rndHalfEven q| ≤ 1 / 2 ∧
      (|q - rndHalfEven q| = 1 / 2 → rndHalfEven q % 2 = 0) := by
  have h0 : (⌊q⌋ : ℚ) ≤ q := Int.floor_le q
  have h1 : q < ⌊q⌋ + 1 := Int.lt_floor_add_one q
  unfold rndHalfEven
  split_ifs with hlt hgt hev
  · rw [abs_of_nonneg (by linarith)]
    exact ⟨by linarith, fun habs => absurd habs (by intro hh; linarith)⟩
  · push_cast
    rw [abs_of_nonpos (by linarith)]
    exact ⟨by linarith, fun habs => absurd habs (by intro hh; linarith)⟩
  · have htie : q - (⌊q⌋ : ℚ) = 1 / 2 := by linarith
    rw [abs_of_nonneg (by linarith)]
    exact ⟨by linarith, fun _ => hev⟩
  · have htie : q - (⌊q⌋ : ℚ) = 1 / 2 := by linarith
    push_cast
    rw [abs_of_nonpos (by linarith)]
    exact ⟨by linarith, fun _ => by omega⟩

theorem roundTo4_mono {q q' : ℚ} (h : q ≤ q') : roundTo4 q ≤ roundTo4 q' := by
  unfold roundTo4
  have hm := rndHalfEven_mono (by linarith : q * 10000 ≤ q' * 10000)
  have hc : ((rndHalfEven (q * 10000) : ℚ)) ≤ (rndHalfEven (q' * 10000) : ℚ) := by
    exact_mod_cast hm
  linarith

theorem roundTo4_char (q : ℚ) :
    ∃ n : ℤ, roundTo4 q = (n : ℚ) / 10000 ∧ |q - roundTo4 q| ≤ 1 / 20000 ∧
      (|q - roundTo4 q| = 1 / 20000 → n % 2 = 0) := by
  refine ⟨rndHalfEven (q * 10000), rfl, ?_, ?_⟩ <;>
  · have hch := rndHalfEven_char (q * 10000)
    have key : q - roundTo4 q =
        (q * 10000 - rndHalfEven (q * 10000)) / 10000 := by
      unfold roundTo4; ring
    rw [key, abs_div, abs_of_pos (by norm_num : (0 : ℚ) < 10000)]
    first
    | · have := hch.1
        linarith
    | · intro habs
        exact hch.2 (by linarith)

theorem truncQ_mono {q q' : ℚ} (h : q ≤ q') : truncQ q ≤ truncQ q' := by
  unfold truncQ
  by_cases h1 : 0 ≤ q
  · have h2 : 0 ≤ q' := le_trans h1 h
    simp only [h1, h2, if_true]
    exact Int.floor_mono h
  · by_cases h2 : 0 ≤ q'
    · simp only [h1, h2, if_true, if_false]
      have hc : ⌈q⌉ ≤ 0 := Int.ceil_le.2 (by exact_mod_cast le_of_lt (not_le.1 h1))
      have hf : (0 : ℤ) ≤ ⌊q'⌋ := Int.le_floor.2 (by exact_mod_cast h2)
      omega
    · simp only [h1, h2, if_false]
      exact Int.ceil_mono h

/-! ### Claim theorems -/

/-- Claim C1: for every message, `compute_liquidity_signal` computes the
score as `(avg_volume / 1_000_000.0) + turnover_ratio`, where
`avg_volume` is the message value coerced by `int()` (default
`1_000_000` when absent) and `turnover_ratio` the message value coerced
by `float()` (default `0.8` when absent); the stored `liquidity_score`
is exactly that score rounded. -/
theorem claim1_score_formula (m : Msg) (a : ℤ) (t : ℚ)
    (hA : pyInt (getD m "avg_volume" (Value.int 1000000)) = Except.ok a)
    (hT : pyFloat (getD m "turnover_ratio" (Value.float (4 / 5))) = Except.ok t) :
    ∃ r : Msg, (compute_liquidity_signal m).2 = Except.ok r ∧
      getVal r "liquidity_score" =
        Option.some (Value.float (roundTo4 ((a : ℚ) / 1000000 + t))) := by
  refine ⟨dictMerge m (resultOf (scoreOf a t)), ?_, ?_⟩
  · rw [compute_ok m a t hA hT]
  · rw [getVal_merge_score]
    rfl

/-- Witness for C1 at the spec's rounding example:
`avg_volume = 1_500_000`, `turnover_ratio = 0.33333`. -/
theorem claim1_score_formula_witness :
    pyInt (getD [("avg_volume", Value.int 1500000),
                 ("turnover_ratio", Value.float (mkRat 33333 100000))]
        "avg_volume" (Value.int 1000000)) = Except.ok 1500000 ∧
    pyFloat (getD [("avg_volume", Value.int 1500000),
                   ("turnover_ratio", Value.float (mkRat 33333 100000))]
        "turnover_ratio" (Value.float (4 / 5))) = Except.ok (mkRat 33333 100000) ∧
    (∃ r : Msg,
      (compute_liquidity_signal
          [("avg_volume", Value.int 1500000),
           ("turnover_ratio", Value.float (mkRat 33333 100000))]).2 =
        Except.ok r ∧
      getVal r "liquidity_score" =
        Option.some
          (Value.float
            (roundTo4 (((1500000 : ℤ) : ℚ) / 1000000 + mkRat 33333 100000)))) :=
  ⟨rfl, rfl, claim1_score_formula _ 1500000 (mkRat 33333 100000) rfl rfl⟩

/-- Claim C2: the signal is `"LIQUID"` iff the unrounded score is at
least `2` (inclusive boundary), and `"ILLIQUID"` otherwise; the
comparison uses the score before rounding. -/
theorem claim2_signal_threshold (m : Msg) (a : ℤ) (t : ℚ)
    (hA : pyInt (getD m "avg_volume" (Value.int 1000000)) = Except.ok a)
    (hT : pyFloat (getD m "turnover_ratio" (Value.float (4 / 5))) = Except.ok t) :
    ∃ r : Msg, (compute_liquidity_signal m).2 = Except.ok r ∧
      (getVal r "liquidity_signal" = Option.some (Value.str "LIQUID") ↔
        2 ≤ (a : ℚ) / 1000000 + t) ∧
      (getVal r "liquidity_signal" = Option.some (Value.str "LIQUID") ∨
        getVal r "liquidity_signal" = Option.some (Value.str "ILLIQUID")) := by
  refine ⟨dictMerge m (resultOf (scoreOf a t)), ?_, ?_, ?_⟩
  · rw [compute_ok m a t hA hT]
  · rw [getVal_merge_signal]
    unfold signalOf scoreOf
    by_cases hs : 2 ≤ (a : ℚ) / 1000000 + t
    · simp [hs]
    · simp [hs]
  · rw [getVal_merge_signal]
    unfold signalOf scoreOf
    by_cases hs : 2 ≤ (a : ℚ) / 1000000 + t
    · simp [hs]
    · simp [hs]

/-- Witness for C2 at the spec's boundary example:
`avg_volume = 1_200_000`, `turnover_ratio = 0.8` gives score exactly 2. -/
theorem claim2_signal_threshold_witness :
    pyInt (getD [("avg_volume", Value.int 1200000)]
        "avg_volume" (Value.int 1000000)) = Except.ok 1200000 ∧
    pyFloat (getD [("avg_volume", Value.int 1200000)]
        "turnover_ratio" (Value.float (4 / 5))) = Except.ok (4 / 5) ∧
    (∃ r : Msg,
      (compute_liquidity_signal [("avg_volume", Value.int 1200000)]).2 =
        Except.ok r ∧
      (getVal r "liquidity_signal" = Option.some (Value.str "LIQUID") ↔
        2 ≤ ((1200000 : ℤ) : ℚ) / 1000000 + 4 / 5) ∧
      (getVal r "liquidity_signal" = Option.some (Value.str "LIQUID") ∨
        getVal r "liquidity_signal" = Option.some (Value.str "ILLIQUID"))) :=
  ⟨rfl, rfl, claim2_signal_threshold _ 1200000 (4 / 5) rfl rfl⟩

/-- Claim C3: the enriched message contains every key of the input plus
`liquidity_score` and `liquidity_signal`; those two keys hold the
computed values (overwriting any input values, last-write-wins), and
every other key keeps its original value. -/
theorem claim3_merge_semantics (m : Msg) (a : ℤ) (t : ℚ)
    (hA : pyInt (getD m "avg_volume" (Value.int 1000000)) = Except.ok a)
    (hT : pyFloat (getD m "turnover_ratio" (Value.float (4 / 5))) = Except.ok t) :
    ∃ r : Msg, (compute_liquidity_signal m).2 = Except.ok r ∧
      getVal r "liquidity_score" =
        Option.some (Value.float (roundTo4 (scoreOf a t))) ∧
      getVal r "liquidity_signal" =
        Option.some (Value.str (signalOf (scoreOf a t))) ∧
      (∀ k : String, k ≠ "liquidity_score" → k ≠ "liquidity_signal" →
        getVal r k = getVal m k) ∧
      (∀ k : String, (getVal m k).isSome → (getVal r k).isSome) := by
  refine ⟨dictMerge m (resultOf (scoreOf a t)), ?_, getVal_merge_score m _,
    getVal_merge_signal m _, fun k h1 h2 => getVal_merge_other m _ k h1 h2, ?_⟩
  · rw [compute_ok m a t hA hT]
  · intro k hk
    by_cases h1 : k = "liquidity_score"
    · rw [h1, getVal_merge_score]; rfl
    · by_cases h2 : k = "liquidity_signal"
      · rw [h2, getVal_merge_signal]; rfl
      · rw [getVal_merge_other m _ k h1 h2]; exact hk

/-- Witness for C3 on a message that already contains a stale
`liquidity_score`, checking the computed value wins. -/
theorem claim3_merge_semantics_witness :
    pyInt (getD [("symbol", Value.str "XYZ"),
                 ("liquidity_score", Value.float 99)]
        "avg_volume" (Value.int 1000000)) = Except.ok 1000000 ∧
    pyFloat (getD [("symbol", Value.str "XYZ"),
                   ("liquidity_score", Value.float 99)]
        "turnover_ratio" (Value.float (4 / 5))) = Except.ok (4 / 5) ∧
    (∃ r : Msg,
      (compute_liquidity_signal
          [("symbol", Value.str "XYZ"),
           ("liquidity_score", Value.float 99)]).2 = Except.ok r ∧
      getVal r "liquidity_score" =
        Option.some (Value.float (roundTo4 (scoreOf 1000000 (4 / 5)))) ∧
      getVal r "liquidity_signal" =
        Option.some (Value.str (signalOf (scoreOf 1000000 (4 / 5)))) ∧
      (∀ k : String, k ≠ "liquidity_score" → k ≠ "liquidity_signal" →
        getVal r k =
          getVal [("symbol", Value.str "XYZ"),
                  ("liquidity_score", Value.float 99)] k) ∧
      (∀ k : String,
        (getVal [("symbol", Value.str "XYZ"),
                 ("liquidity_score", Value.float 99)] k).isSome →
          (getVal r k).isSome)) :=
  ⟨rfl, rfl, claim3_merge_semantics _ 1000000 (4 / 5) rfl rfl⟩

/-- Claim C4: whenever the schema predicate accepts a message,
`validate_input_message` succeeds and returns the message unchanged. -/
theorem claim4_validate_identity (schema : Msg → Bool) (m : Msg)
    (h : schema m = true) :
    (validate_input_message schema m).2 = Except.ok m := by
  simp [validate_input_message, h]

/-- Witness for C4 with an always-true predicate. -/
theorem claim4_validate_identity_witness :
    (fun _ : Msg => true) [("symbol", Value.str "ABC")] = true ∧
    (validate_input_message (fun _ => true) [("symbol", Value.str "ABC")]).2 =
      Except.ok [("symbol", Value.str "ABC")] :=
  ⟨rfl, claim4_validate_identity (fun _ => true) [("symbol", Value.str "ABC")] rfl⟩

/-- Claim C5: whenever the schema predicate rejects a message,
`validate_input_message` fails with the invalid-format `ValueError`. -/
theorem claim5_validate_rejects (schema : Msg → Bool) (m : Msg)
    (h : schema m = false) :
    (validate_input_message schema m).2 =
      Except.error (Err.valueError "Invalid message format") := by
  simp [validate_input_message, h]

/-- Witness for C5 with an always-false predicate. -/
theorem claim5_validate_rejects_witness :
    (fun _ : Msg => false) [("symbol", Value.str "ABC")] = false ∧
    (validate_input_message (fun _ => false) [("symbol", Value.str "ABC")]).2 =
      Except.error (Err.valueError "Invalid message format") :=
  ⟨rfl, claim5_validate_rejects (fun _ => false) [("symbol", Value.str "ABC")] rfl⟩

/-- Claim C6: a present but non-coercible `avg_volume` or
`turnover_ratio` makes `compute_liquidity_signal` fail with the
coercion error, which propagates uncaught to the caller. -/
theorem claim6_coercion_error_propagates :
    (∀ (m : Msg) (v : Value) (e : Err),
      getVal m "avg_volume" = Option.some v →
      pyInt v = Except.error e →
      (compute_liquidity_signal m).2 = Except.error e) ∧
    (∀ (m : Msg) (a : ℤ) (v : Value) (e : Err),
      pyInt (getD m "avg_volume" (Value.int 1000000)) = Except.ok a →
      getVal m "turnover_ratio" = Option.some v →
      pyFloat v = Except.error e →
      (compute_liquidity_signal m).2 = Except.error e) := by
  constructor
  · intro m v e hv he
    have hA : pyInt (getD m "avg_volume" (Value.int 1000000)) = Except.error e := by
      unfold getD
      rw [hv]
      exact he
    rw [compute_avg_err m e hA]
  · intro m a v e hA hv he
    have hT : pyFloat (getD m "turnover_ratio" (Value.float (4 / 5))) =
        Except.error e := by
      unfold getD
      rw [hv]
      exact he
    rw [compute_turnover_err m a e hA hT]

/-- Witness for C6 at the spec's example `avg_volume = "not_a_number"`. -/
theorem claim6_coercion_error_propagates_witness :
    getVal [("avg_volume", Value.str "not_a_number")] "avg_volume" =
      Option.some (Value.str "not_a_number") ∧
    pyInt (Value.str "not_a_number") =
      Except.error
        (Err.valueError ("invalid literal for int() with base 10: " ++ "not_a_number")) ∧
    (compute_liquidity_signal [("avg_volume", Value.str "not_a_number")]).2 =
      Except.error
        (Err.valueError ("invalid literal for int() with base 10: " ++ "not_a_number")) :=
  ⟨rfl, rfl,
    claim6_coercion_error_propagates.1 _ (Value.str "not_a_number") _ rfl rfl⟩

/-- Claim C7: the stored `liquidity_score` is the unrounded score
rounded to four decimal places with round-half-to-even: it is an
integer multiple of `1/10000` within `1/20000` of the score, and an
exact tie is resolved to an even multiple. -/
theorem claim7_round_half_even (m : Msg) (a : ℤ) (t : ℚ)
    (hA : pyInt (getD m "avg_volume" (Value.int 1000000)) = Except.ok a)
    (hT : pyFloat (getD m "turnover_ratio" (Value.float (4 / 5))) = Except.ok t) :
    ∃ (r : Msg) (s : ℚ) (n : ℤ),
      (compute_liquidity_signal m).2 = Except.ok r ∧
      getVal r "liquidity_score" = Option.some (Value.float s) ∧
      s = (n : ℚ) / 10000 ∧
      |scoreOf a t - s| ≤ 1 / 20000 ∧
      (|scoreOf a t - s| = 1 / 20000 → Even n) := by
  obtain ⟨n, hn, hb, he⟩ := roundTo4_char (scoreOf a t)
  refine ⟨dictMerge m (resultOf (scoreOf a t)), roundTo4 (scoreOf a t), n,
    ?_, getVal_merge_score m _, hn, hb, fun h => Int.even_iff.2 (he h)⟩
  rw [compute_ok m a t hA hT]

/-- Witness for C7 at the spec's just-below-boundary example
`avg_volume = 1_199_999`, default `turnover_ratio`. -/
theorem claim7_round_half_even_witness :
    pyInt (getD [("avg_volume", Value.int 1199999)]
        "avg_volume" (Value.int 1000000)) = Except.ok 1199999 ∧
    pyFloat (getD [("avg_volume", Value.int 1199999)]
        "turnover_ratio" (Value.float (4 / 5))) = Except.ok (4 / 5) ∧
    (∃ (r : Msg) (s : ℚ) (n : ℤ),
      (compute_liquidity_signal [("avg_volume", Value.int 1199999)]).2 =
        Except.ok r ∧
      getVal r "liquidity_score" = Option.some (Value.float s) ∧
      s = (n : ℚ) / 10000 ∧
      |scoreOf 1199999 (4 / 5) - s| ≤ 1 / 20000 ∧
      (|scoreOf 1199999 (4 / 5) - s| = 1 / 20000 → Even n)) :=
  ⟨rfl, rfl, claim7_round_half_even _ 1199999 (4 / 5) rfl rfl⟩

/-- Claim C8: with the turnover coercion fixed, a larger coerced
`avg_volume` never yields a smaller stored `liquidity_score`;
symmetrically with `avg_volume` fixed and a larger coerced
`turnover_ratio`. -/
theorem claim8_monotonicity :
    (∀ (m m' : Msg) (a a' : ℤ) (t : ℚ),
      pyInt (getD m "avg_volume" (Value.int 1000000)) = Except.ok a →
      pyInt (getD m' "avg_volume" (Value.int 1000000)) = Except.ok a' →
      pyFloat (getD m "turnover_ratio" (Value.float (4 / 5))) = Except.ok t →
      pyFloat (getD m' "turnover_ratio" (Value.float (4 / 5))) = Except.ok t →
      a ≤ a' →
      ∃ (r r' : Msg) (s s' : ℚ),
        (compute_liquidity_signal m).2 = Except.ok r ∧
        (compute_liquidity_signal m').2 = Except.ok r' ∧
        getVal r "liquidity_score" = Option.some (Value.float s) ∧
        getVal r' "liquidity_score" = Option.some (Value.float s') ∧
        s ≤ s') ∧
    (∀ (m m' : Msg) (a : ℤ) (t t' : ℚ),
      pyInt (getD m "avg_volume" (Value.int 1000000)) = Except.ok a →
      pyInt (getD m' "avg_volume" (Value.int 1000000)) = Except.ok a →
      pyFloat (getD m "turnover_ratio" (Value.float (4 / 5))) = Except.ok t →
      pyFloat (getD m' "turnover_ratio" (Value.float (4 / 5))) = Except.ok t' →
      t ≤ t' →
      ∃ (r r' : Msg) (s s' : ℚ),
        (compute_liquidity_signal m).2 = Except.ok r ∧
        (compute_liquidity_signal m').2 = Except.ok r' ∧
        getVal r "liquidity_score" = Option.some (Value.float s) ∧
        getVal r' "liquidity_score" = Option.some (Value.float s') ∧
        s ≤ s') := by
  constructor
  · intro m m' a a' t hA hA' hT hT' hle
    refine ⟨dictMerge m (resultOf (scoreOf a t)),
      dictMerge m' (resultOf (scoreOf a' t)),
      roundTo4 (scoreOf a t), roundTo4 (scoreOf a' t),
      by rw [compute_ok m a t hA hT], by rw [compute_ok m' a' t hA' hT'],
      getVal_merge_score m _, getVal_merge_score m' _, ?_⟩
    apply roundTo4_mono
    unfold scoreOf
    have hc : (a : ℚ) ≤ (a' : ℚ) := by exact_mod_cast hle
    have hd : (a : ℚ) / 1000000 ≤ (a' : ℚ) / 1000000 := by linarith
    linarith
  · intro m m' a t t' hA hA' hT hT' hle
    refine ⟨dictMerge m (resultOf (scoreOf a t)),
      dictMerge m' (resultOf (scoreOf a t')),
      roundTo4 (scoreOf a t), roundTo4 (scoreOf a t'),
      by rw [compute_ok m a t hA hT], by rw [compute_ok m' a t' hA' hT'],
      getVal_merge_score m _, getVal_merge_score m' _, ?_⟩
    apply roundTo4_mono
    unfold scoreOf
    linarith

/-- Witness for C8: avg volumes 1_000_000 vs 1_500_000 at the default
turnover, then default avg volume at turnovers 0.8 vs 0.9. -/
theorem claim8_monotonicity_witness :
    ((1000000 : ℤ) ≤ 1500000 ∧
      ∃ (r r' : Msg) (s s' : ℚ),
        (compute_liquidity_signal [("avg_volume", Value.int 1000000)]).2 =
          Except.ok r ∧
        (compute_liquidity_signal [("avg_volume", Value.int 1500000)]).2 =
          Except.ok r' ∧
        getVal r "liquidity_score" = Option.some (Value.float s) ∧
        getVal r' "liquidity_score" = Option.some (Value.float s') ∧
        s ≤ s') ∧
    ((4 / 5 : ℚ) ≤ mkRat 9 10 ∧
      ∃ (r r' : Msg) (s s' : ℚ),
        (compute_liquidity_signal [("turnover_ratio", Value.float (4 / 5))]).2 =
          Except.ok r ∧
        (compute_liquidity_signal [("turnover_ratio", Value.float (mkRat 9 10))]).2 =
          Except.ok r' ∧
        getVal r "liquidity_score" = Option.some (Value.float s) ∧
        getVal r' "liquidity_score" = Option.some (Value.float s') ∧
        s ≤ s') :=
  ⟨⟨by decide,
    claim8_monotonicity.1 [("avg_volume", Value.int 1000000)]
      [("avg_volume", Value.int 1500000)] 1000000 1500000 (4 / 5)
      rfl rfl rfl rfl (by decide)⟩,
   ⟨by norm_num [Rat.mkRat_eq_div],
    claim8_monotonicity.2 [("turnover_ratio", Value.float (4 / 5))]
      [("turnover_ratio", Value.float (mkRat 9 10))] 1000000 (4 / 5) (mkRat 9 10)
      rfl rfl rfl rfl (by norm_num [Rat.mkRat_eq_div])⟩⟩

/-- Claim C9 counterexample: the raised error value does not carry the
offending message — two different invalid messages produce literally
the same error value, so the error cannot determine the message. -/
theorem claim9_error_payload_cex :
    (validate_input_message (fun _ => false) [("symbol", Value.str "A")]).2 =
      (validate_input_message (fun _ => false) [("symbol", Value.str "B")]).2 ∧
    ([("symbol", Value.str "A")] : Msg) ≠ [("symbol", Value.str "B")] :=
  ⟨rfl, by decide⟩

/-- Claim C9 (amended): on schema rejection the raised error is the
constant `ValueError("Invalid message format")`; the offending message
is carried by the error-level log entry, not by the error value. -/
theorem claim9_error_message_logged (schema : Msg → Bool) (m : Msg)
    (h : schema m = false) :
    (validate_input_message schema m).2 =
      Except.error (Err.valueError "Invalid message format") ∧
    LogEntry.errorInvalidSchema m ∈ (validate_input_message schema m).1 := by
  constructor
  · simp [validate_input_message, h]
  · simp [validate_input_message, h]

/-- Witness for the amended C9 with an always-false predicate. -/
theorem claim9_error_message_logged_witness :
    (fun _ : Msg => false) [("symbol", Value.str "A")] = false ∧
    ((validate_input_message (fun _ => false) [("symbol", Value.str "A")]).2 =
        Except.error (Err.valueError "Invalid message format") ∧
      LogEntry.errorInvalidSchema [("symbol", Value.str "A")] ∈
        (validate_input_message (fun _ => false) [("symbol", Value.str "A")]).1) :=
  ⟨rfl, claim9_error_message_logged (fun _ => false) [("symbol", Value.str "A")] rfl⟩

/-- Claim C10: `int()` truncates a fractional `avg_volume` toward zero
(floor for nonnegative values, ceiling for negative ones), so two
messages whose `avg_volume` values truncate to the same integer — with
the same turnover coercion — get identical `liquidity_score` and
`liquidity_signal`. -/
theorem claim10_truncation :
    (∀ q : ℚ, pyInt (Value.float q) =
      Except.ok (if 0 ≤ q then ⌊q⌋ else ⌈q⌉)) ∧
    (∀ (m m' : Msg) (q q' : ℚ) (t : ℚ),
      getVal m "avg_volume" = Option.some (Value.float q) →
      getVal m' "avg_volume" = Option.some (Value.float q') →
      truncQ q = truncQ q' →
      pyFloat (getD m "turnover_ratio" (Value.float (4 / 5))) = Except.ok t →
      pyFloat (getD m' "turnover_ratio" (Value.float (4 / 5))) = Except.ok t →
      ∃ (r r' : Msg) (s : ℚ) (sg : String),
        (compute_liquidity_signal m).2 = Except.ok r ∧
        (compute_liquidity_signal m').2 = Except.ok r' ∧
        getVal r "liquidity_score" = Option.some (Value.float s) ∧
        getVal r' "liquidity_score" = Option.some (Value.float s) ∧
        getVal r "liquidity_signal" = Option.some (Value.str sg) ∧
        getVal r' "liquidity_signal" = Option.some (Value.str sg)) := by
  constructor
  · intro q
    rfl
  · intro m m' q q' t hv hv' htr hT hT'
    have hA : pyInt (getD m "avg_volume" (Value.int 1000000)) =
        Except.ok (truncQ q) := by
      unfold getD
      rw [hv]
      rfl
    have hA' : pyInt (getD m' "avg_volume" (Value.int 1000000)) =
        Except.ok (truncQ q) := by
      unfold getD
      rw [hv']
      simp only [Option.getD_some, pyInt, htr]
    exact ⟨dictMerge m (resultOf (scoreOf (truncQ q) t)),
      dictMerge m' (resultOf (scoreOf (truncQ q) t)),
      roundTo4 (scoreOf (truncQ q) t), signalOf (scoreOf (truncQ q) t),
      by rw [compute_ok m (truncQ q) t hA hT],
      by rw [compute_ok m' (truncQ q) t hA' hT'],
      getVal_merge_score m _, getVal_merge_score m' _,
      getVal_merge_signal m _, getVal_merge_signal m' _⟩

/-- Witness for C10: `avg_volume = 1999999.9` and `avg_volume =
1999999.5` both truncate to `1999999` and enrich identically. -/
theorem claim10_truncation_witness :
    getVal [("avg_volume", Value.float (mkRat 19999999 10))] "avg_volume" =
      Option.some (Value.float (mkRat 19999999 10)) ∧
    getVal [("avg_volume", Value.float (mkRat 3999999 2))] "avg_volume" =
      Option.some (Value.float (mkRat 3999999 2)) ∧
    truncQ (mkRat 19999999 10) = truncQ (mkRat 3999999 2) ∧
    (∃ (r r' : Msg) (s : ℚ) (sg : String),
      (compute_liquidity_signal
          [("avg_volume", Value.float (mkRat 19999999 10))]).2 = Except.ok r ∧
      (compute_liquidity_signal
          [("avg_volume", Value.float (mkRat 3999999 2))]).2 = Except.ok r' ∧
      getVal r "liquidity_score" = Option.some (Value.float s) ∧
      getVal r' "liquidity_score" = Option.some (Value.float s) ∧
      getVal r "liquidity_signal" = Option.some (Value.str sg) ∧
      getVal r' "liquidity_signal" = Option.some (Value.str sg)) :=
  ⟨rfl, rfl, by decide,
    claim10_truncation.2 _ _ (mkRat 19999999 10) (mkRat 3999999 2) (4 / 5)
      rfl rfl (by decide) rfl rfl⟩
